import Mathlib

/-!
A shallow embedding of graspnetAPI/grasp.py (classes Grasp, GraspGroup,
RectGrasp, RectGraspGroup). Tables of 32-bit floats are modelled as lists of
rows of exact rationals; the concrete constants appearing in the development
(0.99, 0.999, 0.995 and small integers) are exactly representable, so the
comparisons performed by the code coincide with their rational counterparts.
Python exceptions are modelled with Except, numpy in-place mutation with
explicit state passing, and array object identity (deep copy versus alias)
with a heap from addresses to buffers.
-/

namespace GraspNet

/-- One numeric row of a backing array (float32 values as exact rationals). -/
abbrev Row : Type := List ℚ

/-- A dense 2D numeric table: the backing storage of a group, one list entry per row. -/
abbrev Table : Type := List Row

/-- Grasp row length: [score, width, height, depth, rotation(9), translation(3), object_id]. -/
def GRASP_ARRAY_LEN : Nat := 17

/-- RectGrasp row length: [center_x, center_y, open_x, open_y, height, score, object_id]. -/
def RECT_GRASP_ARRAY_LEN : Nat := 7

/-- Python int(x) applied to a float: truncation toward zero. -/
def pyInt (q : ℚ) : Int := if 0 ≤ q then ⌊q⌋ else ⌈q⌉

/-- Column 0 of a Grasp row, the score (grasp_group_array[:,0] entry). -/
def gScore (r : Row) : ℚ := r.getD 0 0

/-- Column 5 of a RectGrasp row, the score (rect_grasp_group_array[:,5] entry). -/
def rScore (r : Row) : ℚ := r.getD 5 0

/-- GraspGroup.sort_by_score: index = np.argsort(score) sorts ascending (stably, modelled
by insertion sort); when reverse is FALSE the code reverses the index, and the table is
reindexed by the result. -/
def GraspGroup.sort_by_score (t : Table) (reverse : Bool) : Table :=
  let asc := List.insertionSort (fun a b => gScore a ≤ gScore b) t
  if !reverse then asc.reverse else asc

/-- RectGraspGroup.sort_by_score: same code over column 5 of the 7-column table. -/
def RectGraspGroup.sort_by_score (t : Table) (reverse : Bool) : Table :=
  let asc := List.insertionSort (fun a b => rScore a ≤ rScore b) t
  if !reverse then asc.reverse else asc

/-- A 17-column Grasp row with the given score and zeros elsewhere. -/
def row17 (s : ℚ) : Row := s :: List.replicate 16 0

/-- A 7-column RectGrasp row with the given score (column 5) and zeros elsewhere. -/
def row7 (s : ℚ) : Row := [0, 0, 0, 0, 0, s, 0]

/-- C1: the code inverts the documented direction. On a two-row group with scores 1 and 0,
sort_by_score with reverse = true returns the scores in ASCENDING order (0 before 1),
contradicting the claim (descending), and with reverse = false it returns DESCENDING order;
the same happens for RectGraspGroup on column 5. This contradicts the docstring of
sort_by_score (if True, from high to low, if False, from low to high). -/
theorem sort_by_score_direction_inverted :
    GraspGroup.sort_by_score [row17 1, row17 0] true = [row17 0, row17 1] ∧
    GraspGroup.sort_by_score [row17 0, row17 1] false = [row17 1, row17 0] ∧
    RectGraspGroup.sort_by_score [row7 1, row7 0] true = [row7 0, row7 1] ∧
    RectGraspGroup.sort_by_score [row7 0, row7 1] false = [row7 1, row7 0] := by
  refine ⟨?_, ?_, ?_, ?_⟩ <;> rfl

/-- A Python value reachable by GraspGroup.__init__: a Grasp instance (carrying its
grasp_array attribute) or a plain Python list of such values. -/
inductive PyVal where
  | grasp (row : Row)
  | pyList (items : List PyVal)

/-- Attribute access v.grasp_array: Grasp instances have it; a list raises AttributeError. -/
def getattrGraspArray : PyVal → Except String Row
  | PyVal.grasp r => Except.ok r
  | PyVal.pyList _ => Except.error "AttributeError: list object has no attribute grasp_array"

/-- GraspGroup.__init__ in the one-argument branch: the code sets grasp_list = args — the
one-element TUPLE, not args[0] — and then, for each element of that tuple, appends
grasp.grasp_array reshaped to rows. The single loop iteration therefore visits the passed
object itself, and reads its grasp_array attribute. -/
def GraspGroup.init1 (arg : PyVal) : Except String Table :=
  List.foldlM
    (fun tbl v => (getattrGraspArray v).map (fun r => tbl ++ [r]))
    ([] : Table) [arg]

/-- A Python value reachable by RectGraspGroup.__init__: a RectGrasp instance, a numpy
array, or a plain list. The loop body calls rect_grasp.reshape, an ndarray method, which
neither a RectGrasp instance nor a list possesses. -/
inductive RPyVal where
  | rectGrasp (row : Row)
  | ndarray (rows : Table)
  | pyList (items : List RPyVal)

/-- Method access v.reshape: only numpy arrays have it. -/
def getattrReshape : RPyVal → Except String Table
  | RPyVal.ndarray rows => Except.ok rows
  | RPyVal.rectGrasp _ =>
      Except.error "AttributeError: RectGrasp object has no attribute reshape"
  | RPyVal.pyList _ => Except.error "AttributeError: list object has no attribute reshape"

/-- RectGraspGroup.__init__ in the one-argument branch: rect_grasp_list = args (the tuple),
and each visited element has rect_grasp.reshape((-1, 7)) concatenated onto the table. -/
def RectGraspGroup.init1 (arg : RPyVal) : Except String Table :=
  List.foldlM
    (fun tbl v => (getattrReshape v).map (fun rows => tbl ++ rows))
    ([] : Table) [arg]

/-- C2: constructing a group from a list of instances always raises instead of building the
row-stacked table: GraspGroup.__init__ iterates over the argument tuple rather than the
list, so the loop reads grasp_array off the list object itself (AttributeError), and
RectGraspGroup.__init__ additionally calls the ndarray method reshape on what its docstring
says are RectGrasp instances. Shown for every list and at the concrete one-element inputs. -/
theorem group_init_from_list_raises :
    (∀ items, GraspGroup.init1 (PyVal.pyList items) =
      Except.error "AttributeError: list object has no attribute grasp_array") ∧
    (∀ items, RectGraspGroup.init1 (RPyVal.pyList items) =
      Except.error "AttributeError: list object has no attribute reshape") ∧
    GraspGroup.init1 (PyVal.pyList [PyVal.grasp (row17 1)]) =
      Except.error "AttributeError: list object has no attribute grasp_array" ∧
    RectGraspGroup.init1 (RPyVal.pyList [RPyVal.rectGrasp (row7 1)]) =
      Except.error "AttributeError: list object has no attribute reshape" :=
  ⟨fun _ => rfl, fun _ => rfl, rfl, rfl⟩

/-- RectGrasp.to_grasp: the method body is the single statement pass, so every invocation
returns None and raises nothing. A raised exception is modelled as an error result, the
returned None as ok none; the three parameters (camera intrinsics, depth source, depth
method) never influence the body. -/
def RectGrasp.to_grasp (_cameraIntrinsicsArg _depthsArg _depthMethodArg : Unit) :
    Except String (Option Row) :=
  Except.ok none

/-- RectGraspGroup.to_grasp_group: likewise a bare pass body returning None. -/
def RectGraspGroup.to_grasp_group (_cameraIntrinsicsArg _depthsArg _depthMethodArg : Unit) :
    Except String (Option Table) :=
  Except.ok none

/-- C3 counterexample: at a concrete invocation neither back-projection raises any
condition — in particular no not-implemented report — so the claim as stated is false. -/
theorem back_projections_do_not_report :
    ¬ (∃ e, RectGrasp.to_grasp () () () = Except.error e) ∧
    ¬ (∃ e, RectGraspGroup.to_grasp_group () () () = Except.error e) := by
  constructor <;> rintro ⟨e, h⟩ <;> simp [RectGrasp.to_grasp, RectGraspGroup.to_grasp_group] at h

/-- C3 amended: for every invocation the two back-projection conversions silently return
None — an ordinary (and potentially misleading) value — and never raise a not-implemented
condition. -/
theorem back_projections_return_none :
    ∀ a b c, RectGrasp.to_grasp a b c = Except.ok none ∧
      RectGraspGroup.to_grasp_group a b c = Except.ok none :=
  fun _ _ _ => ⟨rfl, rfl⟩

/-- A numpy array as built inside Grasp.__init__: whether it is 0-dimensional (np.array of
a bare scalar) together with its element data. -/
structure NpArr where
  ndim0 : Bool
  data : List ℚ

/-- np.concatenate: raises ValueError on any zero-dimensional input, otherwise joins. -/
def npConcatenate (xs : List NpArr) : Except String (List ℚ) :=
  if xs.any (fun a => a.ndim0) then
    Except.error "ValueError: zero-dimensional arrays cannot be concatenated"
  else
    Except.ok (xs.map (fun a => a.data)).flatten

/-- Grasp.__init__ with seven discrete arguments packs
np.concatenate([np.array((score, width, height, depth)), rotation_matrix.reshape(-1),
translation, np.array((object_id))]). The first array is built from a 4-tuple (1-d), the
reshaped rotation is 1-d with 9 entries, the translation is a 3-vector, but (object_id) is
a parenthesised scalar — not a tuple — so np.array((object_id)) is 0-dimensional. -/
def Grasp.init7 (score width heightArg depth : ℚ) (rotationMatrix : List ℚ)
    (translation : List ℚ) (objectId : ℚ) : Except String Row :=
  npConcatenate
    [⟨false, [score, width, heightArg, depth]⟩, ⟨false, rotationMatrix⟩,
     ⟨false, translation⟩, ⟨true, [objectId]⟩]

/-- C7: the seven-field Grasp constructor never produces a row: for all field values it
raises the numpy ValueError on the zero-dimensional np.array((object_id)); in particular at
the concrete input score 1/2, width 1/10, height 1/50, depth 1/50, identity rotation, zero
translation, object id 1, so no accessor round trip can take place. -/
theorem grasp_init7_always_raises :
    (∀ s w h d R t o, Grasp.init7 s w h d R t o =
      Except.error "ValueError: zero-dimensional arrays cannot be concatenated") ∧
    Grasp.init7 (1/2) (1/10) (1/50) (1/50) [1, 0, 0, 0, 1, 0, 0, 0, 1] [0, 0, 0] 1 =
      Except.error "ValueError: zero-dimensional arrays cannot be concatenated" :=
  ⟨fun _ _ _ _ _ _ _ => rfl, rfl⟩

/-- GraspGroup.random_sample: if numGrasp > len(self) it raises a ValueError before
touching any state; otherwise np.random.shuffle permutes a DEEP COPY of the table and the
first numGrasp rows of that copy are deep-copied into a new group. The nondeterministic
shuffle outcome is passed in as the argument shuffled (constrained to be a permutation of
the table where the result matters); the second component of the result is the state of
self.grasp_group_array after the call, which the method never reassigns. -/
def GraspGroup.random_sample (t : Table) (numGrasp : Nat) (shuffled : Table) :
    Except String Table × Table :=
  if numGrasp > t.length then
    (Except.error
      "ValueError: Number of sampled grasp should be no more than the total number of grasps in the group",
     t)
  else
    (Except.ok (shuffled.take numGrasp), t)

/-- RectGraspGroup.random_sample: the identical code over the 7-column table. -/
def RectGraspGroup.random_sample (t : Table) (numGrasp : Nat) (shuffled : Table) :
    Except String Table × Table :=
  if numGrasp > t.length then
    (Except.error
      "ValueError: Number of sampled grasp should be no more than the total number of grasps in the group",
     t)
  else
    (Except.ok (shuffled.take numGrasp), t)

/-- Both random_sample bodies are literally the same table transform. -/
theorem rect_random_sample_eq_grasp_random_sample (t : Table) (n : Nat) (shuffled : Table) :
    RectGraspGroup.random_sample t n shuffled = GraspGroup.random_sample t n shuffled := rfl

/-- Shared argument for the random_sample contract over one table. -/
theorem random_sample_contract (t shuffled : Table) (n : Nat) (hperm : shuffled.Perm t) :
    (n > t.length →
      GraspGroup.random_sample t n shuffled =
        (Except.error
          "ValueError: Number of sampled grasp should be no more than the total number of grasps in the group",
         t)) ∧
    (n ≤ t.length →
      ∃ res, GraspGroup.random_sample t n shuffled = (Except.ok res, t) ∧
        res.length = n ∧ res.Subperm t) := by
  constructor
  · intro hgt
    simp [GraspGroup.random_sample, hgt]
  · intro hle
    refine ⟨shuffled.take n, ?_, ?_, ?_⟩
    · simp [GraspGroup.random_sample, Nat.not_lt.mpr hle]
    · rw [List.length_take]
      exact Nat.min_eq_left (hperm.length_eq ▸ hle)
    · exact ((shuffled.take_sublist n).subperm).trans hperm.subperm

/-- C4: for every group table and every permutation the shuffle may produce, random_sample
with n exceeding the length fails with the ValueError and leaves the group table unchanged,
and with n within the length it returns ok with a new table of exactly n rows forming a
sub-multiset of the original rows, again leaving the group table unchanged; this holds for
GraspGroup and the identical RectGraspGroup method alike. -/
theorem random_sample_spec (t shuffled : Table) (n : Nat) (hperm : shuffled.Perm t) :
    ((n > t.length →
      GraspGroup.random_sample t n shuffled =
        (Except.error
          "ValueError: Number of sampled grasp should be no more than the total number of grasps in the group",
         t)) ∧
     (n ≤ t.length →
      ∃ res, GraspGroup.random_sample t n shuffled = (Except.ok res, t) ∧
        res.length = n ∧ res.Subperm t)) ∧
    ((n > t.length →
      RectGraspGroup.random_sample t n shuffled =
        (Except.error
          "ValueError: Number of sampled grasp should be no more than the total number of grasps in the group",
         t)) ∧
     (n ≤ t.length →
      ∃ res, RectGraspGroup.random_sample t n shuffled = (Except.ok res, t) ∧
        res.length = n ∧ res.Subperm t)) := by
  refine ⟨random_sample_contract t shuffled n hperm, ?_⟩
  rw [rect_random_sample_eq_grasp_random_sample]
  exact random_sample_contract t shuffled n hperm

/-- C4 witness: the contract applied to the two-row table with scores 0 and 1, its swap as
the shuffle outcome, and n = 1. -/
theorem random_sample_spec_witness :
    ∃ res, GraspGroup.random_sample [row17 0, row17 1] 1 [row17 1, row17 0] =
      (Except.ok res, [row17 0, row17 1]) ∧
      res.length = 1 ∧ res.Subperm [row17 0, row17 1] :=
  (random_sample_spec [row17 0, row17 1] [row17 1, row17 0] 1
    (List.Perm.swap (row17 0) (row17 1) [])).1.2 (by decide)

/-- The content of a persisted flat table file, as written by np.save: the array shape and
the row-major float32 payload (spec section 6: no header semantics beyond the shape, no
versioning; values are preserved exactly). -/
structure NpyFile where
  rows : Nat
  cols : Nat
  payload : List ℚ

/-- save_npy (identical in GraspGroup and RectGraspGroup): np.save writes the backing
table, recording its shape and its row-major data. -/
def save_npy (t : Table) : NpyFile :=
  ⟨t.length, (t.headD []).length, t.flatten⟩

/-- Rebuild the given number of rows of the given width from a row-major payload. -/
def unflattenRows (n w : Nat) (d : List ℚ) : Table :=
  match n with
  | 0 => []
  | Nat.succ m => d.take w :: unflattenRows m w (d.drop w)

/-- from_npy (identical in GraspGroup and RectGraspGroup): np.load reconstructs the array
of the recorded shape from the payload and the table is replaced with it wholesale. -/
def from_npy (f : NpyFile) : Table :=
  unflattenRows f.rows f.cols f.payload

/-- Unflattening a flattened rectangular table recovers it. -/
theorem unflattenRows_flatten (w : Nat) :
    ∀ t : Table, (∀ r ∈ t, r.length = w) → unflattenRows t.length w t.flatten = t := by
  intro t
  induction t with
  | nil => intro _; rfl
  | cons r rest ih =>
    intro hrect
    have hr : r.length = w := hrect r (List.mem_cons_self r rest)
    have hrest : ∀ x ∈ rest, x.length = w := fun x hx => hrect x (List.mem_cons_of_mem r hx)
    simp only [List.length_cons, List.flatten_cons, unflattenRows]
    rw [← hr, List.take_left, List.drop_left, hr, ih hrest]

/-- C9: saving a group table of uniform row width (17 for GraspGroup, 7 for
RectGraspGroup) and loading the file back reproduces the table exactly. -/
theorem save_load_roundtrip (t : Table) (w : Nat) (hrect : ∀ r ∈ t, r.length = w) :
    from_npy (save_npy t) = t := by
  cases t with
  | nil => rfl
  | cons r rest =>
    have hr : r.length = w := hrect r (List.mem_cons_self r rest)
    show unflattenRows (r :: rest).length ((r :: rest).headD []).length (r :: rest).flatten =
      r :: rest
    simp only [List.headD_cons]
    rw [hr]
    exact unflattenRows_flatten w (r :: rest) hrect

/-- C9 witness: the round trip at a concrete two-row 17-column table. -/
theorem save_load_roundtrip_witness :
    from_npy (save_npy [row17 1, row17 2]) = [row17 1, row17 2] :=
  save_load_roundtrip [row17 1, row17 2] 17 (by decide)

/-- The heap of numpy array objects: each address holds the buffer of one array, as a
table of rows (a single Grasp row is held as a one-row buffer). copy.deepcopy allocates a
fresh address; aliasing would mean two objects holding the same address. -/
def Heap : Type := Nat → Table

/-- Overwrite the buffer stored at one address. -/
def heapWrite (h : Heap) (a : Nat) (t : Table) : Heap :=
  fun x => if x = a then t else h x

/-- A GraspGroup or RectGraspGroup object: a reference to its backing array. -/
structure GroupRef where
  addr : Nat

/-- A Grasp object: a reference to its backing 17-element array (one-row buffer). -/
structure GraspRef where
  addr : Nat

/-- Basic slice t[start:stop] of a numpy array along axis 0 (nonnegative bounds). -/
def npSlice (t : Table) (start stop : Nat) : Table :=
  (t.drop start).take (stop - start)

/-- group[start:stop]: GraspGroup.__getitem__ (and the identical RectGraspGroup code) in
the slice branch builds an empty group and assigns it
copy.deepcopy(self.grasp_group_array[index]); the deep copy lands at the fresh address. -/
def getitemSlice (h : Heap) (g : GroupRef) (start stop fresh : Nat) : Heap × GroupRef :=
  (heapWrite h fresh (npSlice (h g.addr) start stop), ⟨fresh⟩)

/-- group[i] for an integer index: GraspGroup.__getitem__ returns
Grasp(self.grasp_group_array[i]), and Grasp.__init__ deep-copies the ndarray row it is
given, so the row is copied into fresh storage. -/
def getitemInt (h : Heap) (g : GroupRef) (i : Nat) (fresh : Nat) : Heap × GraspRef :=
  (heapWrite h fresh [(h g.addr).getD i []], ⟨fresh⟩)

/-- Store value v at row i, column j of a table. -/
def setEntry (t : Table) (i j : Nat) (v : ℚ) : Table :=
  t.set i ((t.getD i []).set j v)

/-- In-place mutation of a group's backing table at row i, column j. -/
def mutateGroup (h : Heap) (g : GroupRef) (i j : Nat) (v : ℚ) : Heap :=
  heapWrite h g.addr (setEntry (h g.addr) i j v)

/-- In-place mutation of a Grasp's backing array at position j. -/
def mutateGrasp (h : Heap) (g : GraspRef) (j : Nat) (v : ℚ) : Heap :=
  heapWrite h g.addr (setEntry (h g.addr) 0 j v)

/-- Reading back the address just written. -/
theorem heapWrite_same (h : Heap) (a : Nat) (t : Table) : heapWrite h a t a = t := by
  simp [heapWrite]

/-- Reading a different address is unaffected by a write. -/
theorem heapWrite_other (h : Heap) (a b : Nat) (t : Table) (hne : b ≠ a) :
    heapWrite h a t b = h b := by
  simp [heapWrite, hne]

/-- C6: on a group of at least 5 rows, group[2:5] yields a group whose freshly allocated
table has exactly 3 rows equal to rows 2, 3, 4 of the original in order; the slicing leaves
the original table untouched, and any subsequent in-place mutation of the returned group's
table still leaves the original table untouched (the deep copy shares no storage). The
identical code runs in RectGraspGroup.__getitem__. -/
theorem getitem_slice_spec (h : Heap) (g : GroupRef) (fresh : Nat)
    (hlen : 5 ≤ (h g.addr).length) (hfresh : fresh ≠ g.addr) :
    ((getitemSlice h g 2 5 fresh).1 (getitemSlice h g 2 5 fresh).2.addr).length = 3 ∧
    (∀ k, k < 3 →
      ((getitemSlice h g 2 5 fresh).1 (getitemSlice h g 2 5 fresh).2.addr)[k]? =
        (h g.addr)[2 + k]?) ∧
    (getitemSlice h g 2 5 fresh).1 g.addr = h g.addr ∧
    (∀ i j v,
      mutateGroup (getitemSlice h g 2 5 fresh).1 (getitemSlice h g 2 5 fresh).2 i j v
        g.addr = h g.addr) := by
  have hbuf : (getitemSlice h g 2 5 fresh).1 (getitemSlice h g 2 5 fresh).2.addr =
      npSlice (h g.addr) 2 5 := heapWrite_same h fresh _
  refine ⟨?_, ?_, ?_, ?_⟩
  · rw [hbuf]
    simp only [npSlice, List.length_take, List.length_drop]
    omega
  · intro k hk
    rw [hbuf]
    simp only [npSlice]
    rw [List.getElem?_take_of_lt (by omega), List.getElem?_drop]
  · exact heapWrite_other h fresh g.addr _ (Ne.symm hfresh)
  · intro i j v
    show heapWrite ((getitemSlice h g 2 5 fresh).1) fresh _ g.addr = h g.addr
    rw [heapWrite_other _ fresh g.addr _ (Ne.symm hfresh)]
    exact heapWrite_other h fresh g.addr _ (Ne.symm hfresh)

/-- C6 witness: a heap whose array 0 is a five-row table, sliced into fresh address 1. -/
theorem getitem_slice_spec_witness :
    (((getitemSlice (fun _ => [row17 0, row17 1, row17 2, row17 3, row17 4]) ⟨0⟩ 2 5 1).1
      (getitemSlice (fun _ => [row17 0, row17 1, row17 2, row17 3, row17 4]) ⟨0⟩ 2 5 1).2.addr).length = 3 ∧
    (∀ k, k < 3 →
      ((getitemSlice (fun _ => [row17 0, row17 1, row17 2, row17 3, row17 4]) ⟨0⟩ 2 5 1).1
        (getitemSlice (fun _ => [row17 0, row17 1, row17 2, row17 3, row17 4]) ⟨0⟩ 2 5 1).2.addr)[k]? =
        [row17 0, row17 1, row17 2, row17 3, row17 4][2 + k]?) ∧
    (getitemSlice (fun _ => [row17 0, row17 1, row17 2, row17 3, row17 4]) ⟨0⟩ 2 5 1).1 0 =
      [row17 0, row17 1, row17 2, row17 3, row17 4] ∧
    (∀ i j v,
      mutateGroup (getitemSlice (fun _ => [row17 0, row17 1, row17 2, row17 3, row17 4]) ⟨0⟩ 2 5 1).1
        (getitemSlice (fun _ => [row17 0, row17 1, row17 2, row17 3, row17 4]) ⟨0⟩ 2 5 1).2 i j v 0 =
        [row17 0, row17 1, row17 2, row17 3, row17 4])) :=
  getitem_slice_spec (fun _ => [row17 0, row17 1, row17 2, row17 3, row17 4]) ⟨0⟩ 1
    (by decide) (by decide)

/-- C10: for an in-range integer index, group[i] materialises a Grasp whose freshly
allocated backing array holds exactly row i of the group's table; the access leaves the
group's table untouched, the Grasp's storage is at a different address than the group's,
and any in-place mutation of the Grasp's array leaves the group's table untouched. -/
theorem getitem_int_independent_copy (h : Heap) (g : GroupRef) (i fresh : Nat)
    (hi : i < (h g.addr).length) (hfresh : fresh ≠ g.addr) :
    (getitemInt h g i fresh).1 (getitemInt h g i fresh).2.addr = [(h g.addr).getD i []] ∧
    (h g.addr).getD i [] = (h g.addr)[i] ∧
    (getitemInt h g i fresh).1 g.addr = h g.addr ∧
    (getitemInt h g i fresh).2.addr ≠ g.addr ∧
    (∀ j v, mutateGrasp (getitemInt h g i fresh).1 (getitemInt h g i fresh).2 j v g.addr =
      h g.addr) := by
  refine ⟨heapWrite_same h fresh _, List.getD_eq_getElem (h g.addr) [] hi, ?_, hfresh, ?_⟩
  · exact heapWrite_other h fresh g.addr _ (Ne.symm hfresh)
  · intro j v
    show heapWrite ((getitemInt h g i fresh).1) fresh _ g.addr = h g.addr
    rw [heapWrite_other _ fresh g.addr _ (Ne.symm hfresh)]
    exact heapWrite_other h fresh g.addr _ (Ne.symm hfresh)

/-- C10 witness: a heap whose array 0 is a two-row table, row 1 read into address 1. -/
theorem getitem_int_independent_copy_witness :
    ((getitemInt (fun _ => [row17 3, row17 4]) ⟨0⟩ 1 1).1
      (getitemInt (fun _ => [row17 3, row17 4]) ⟨0⟩ 1 1).2.addr =
      [[row17 3, row17 4].getD 1 []] ∧
    [row17 3, row17 4].getD 1 [] = [row17 3, row17 4][1] ∧
    (getitemInt (fun _ => [row17 3, row17 4]) ⟨0⟩ 1 1).1 0 = [row17 3, row17 4] ∧
    (getitemInt (fun _ => [row17 3, row17 4]) ⟨0⟩ 1 1).2.addr ≠ 0 ∧
    (∀ j v, mutateGrasp (getitemInt (fun _ => [row17 3, row17 4]) ⟨0⟩ 1 1).1
      (getitemInt (fun _ => [row17 3, row17 4]) ⟨0⟩ 1 1).2 j v 0 = [row17 3, row17 4])) :=
  getitem_int_independent_copy (fun _ => [row17 3, row17 4]) ⟨0⟩ 1 1 (by decide) (by decide)

/-- The translations() column block of a Grasp row: columns 13..15. -/
def rowTranslation (r : Row) : List ℚ := (r.drop 13).take 3

/-- The rotation_matrices() block of a Grasp row: columns 4..12, row-major 3 by 3. -/
def rowRotFlat (r : Row) : List ℚ := (r.drop 4).take 9

/-- The widths() column of a Grasp row: column 1. -/
def rowWidth (r : Row) : ℚ := r.getD 1 0

/-- The object_ids() column of a Grasp row: column 16 cast to an integer. -/
def rowObjectId (r : Row) : Int := pyInt (r.getD 16 0)

/-- The mask of to_rect_grasp_group: rotations[:, 2, 0] > 0.99. Entry (2, 0) of the
row-major 3 by 3 block stored at columns 4..12 is flat offset 6, hence column 10. -/
def rectFilter (r : Row) : Bool := decide ((0.99 : ℚ) < r.getD 10 0)

/-- Componentwise sum of two 3-vectors. -/
def vadd3 (a b : List ℚ) : List ℚ :=
  [a.getD 0 0 + b.getD 0 0, a.getD 1 0 + b.getD 1 0, a.getD 2 0 + b.getD 2 0]

/-- Apply a row-major 3 by 3 matrix, given flat, to a 3-vector. -/
def mat3Apply (m v : List ℚ) : List ℚ :=
  [m.getD 0 0 * v.getD 0 0 + m.getD 1 0 * v.getD 1 0 + m.getD 2 0 * v.getD 2 0,
   m.getD 3 0 * v.getD 0 0 + m.getD 4 0 * v.getD 1 0 + m.getD 5 0 * v.getD 2 0,
   m.getD 6 0 * v.getD 0 0 + m.getD 7 0 * v.getD 1 0 + m.getD 8 0 * v.getD 2 0]

/-- Modelled from the spec: the per-grasp core of get_batch_key_points, which lives in
graspnetAPI/utils/utils.py and is not included under src. Per spec section 4.5 step 2 and
the glossary entry for key points, it computes a small fixed set of four 3D points
describing the gripper center and finger locations from the translation, the rotation and
the width: here the center, the two finger tips offset by half the width along the gripper
closing axis, and a point offset along the approach axis. -/
def keyPointsOfGrasp (t R : List ℚ) (w : ℚ) : List (List ℚ) :=
  [t, vadd3 t (mat3Apply R [0, w / 2, 0]), vadd3 t (mat3Apply R [0, -w / 2, 0]),
   vadd3 t (mat3Apply R [w, 0, 0])]

/-- Modelled from the spec: get_batch_key_points computes the key points row-wise over the
whole batch, one key-point set per input row, order preserved. -/
def get_batch_key_points (ts Rs : List (List ℚ)) (ws : List ℚ) : List (List (List ℚ)) :=
  (ts.zip (Rs.zip ws)).map (fun p => keyPointsOfGrasp p.1 p.2.1 p.2.2)

/-- The camera identifier: the two supported sensor models. -/
inductive Camera where
  | realsense
  | kinect
deriving DecidableEq

/-- Modelled from the spec: the fixed pinhole intrinsics (fx, fy, cx, cy) of the two
camera identifiers (spec section 6). The spec fixes their pinhole form but not their
numeric values, represented here by fixed constants. -/
def cameraIntrinsics : Camera → ℚ × ℚ × ℚ × ℚ
  | Camera.realsense => (927, 927, 651, 350)
  | Camera.kinect => (631, 631, 639, 367)

/-- Modelled from the spec: pinhole projection of a 3D point to pixel coordinates
(spec section 4.5 step 3); rational division is total, a zero depth mapping to 0. -/
def projectPoint (cam : Camera) (p : List ℚ) : ℚ × ℚ :=
  ((cameraIntrinsics cam).1 * p.getD 0 0 / p.getD 2 0 + (cameraIntrinsics cam).2.2.1,
   (cameraIntrinsics cam).2.1 * p.getD 1 0 / p.getD 2 0 + (cameraIntrinsics cam).2.2.2)

/-- Modelled from the spec: the per-grasp core of batch_key_points_2_tuple, which lives in
graspnetAPI/utils/utils.py and is not included under src. Per spec section 4.5 step 4 it
projects the key points with the camera intrinsics and re-encodes one 7-field rectangle row
[center_x, center_y, open_x, open_y, height, score, object_id], the height derived from the
projected finger separation (taken coordinatewise; the spec fixes no metric). -/
def encodeRectRow (cam : Camera) (kps : List (List ℚ)) (score : ℚ) (objectId : Int) : Row :=
  [(projectPoint cam (kps.getD 0 [])).1, (projectPoint cam (kps.getD 0 [])).2,
   (projectPoint cam (kps.getD 1 [])).1, (projectPoint cam (kps.getD 1 [])).2,
   |(projectPoint cam (kps.getD 1 [])).1 - (projectPoint cam (kps.getD 2 [])).1| +
     |(projectPoint cam (kps.getD 1 [])).2 - (projectPoint cam (kps.getD 2 [])).2|,
   score, (objectId : ℚ)]

/-- Modelled from the spec: batch_key_points_2_tuple maps the projection and re-encoding
over the whole batch, one rectangle row per key-point set, order preserved. -/
def batch_key_points_2_tuple (kps : List (List (List ℚ))) (scores : List ℚ)
    (objectIds : List Int) (cam : Camera) : Table :=
  (kps.zip (scores.zip objectIds)).map (fun p => encodeRectRow cam p.1 p.2.1 p.2.2)

/-- GraspGroup.to_rect_grasp_group: reads the column accessors of the table, masks every
column with rotations[:, 2, 0] > 0.99, computes the key points of the surviving rows, and
re-encodes them with the surviving scores and object ids as the new rectangle table
(masking each column array with one shared row mask equals filtering the rows first and
then reading the columns). -/
def GraspGroup.to_rect_grasp_group (t : Table) (cam : Camera) : Table :=
  batch_key_points_2_tuple
    (get_batch_key_points ((t.filter rectFilter).map rowTranslation)
      ((t.filter rectFilter).map rowRotFlat) ((t.filter rectFilter).map rowWidth))
    ((t.filter rectFilter).map gScore) ((t.filter rectFilter).map rowObjectId) cam

/-- The composite per-row rectangle encoding applied to one surviving grasp row. -/
def rectRowOfGraspRow (cam : Camera) (r : Row) : Row :=
  encodeRectRow cam (keyPointsOfGrasp (rowTranslation r) (rowRotFlat r) (rowWidth r))
    (gScore r) (rowObjectId r)

/-- The conversion pipeline is the filter followed by the per-row encoding. -/
theorem to_rect_grasp_group_eq_map_filter (t : Table) (cam : Camera) :
    GraspGroup.to_rect_grasp_group t cam =
      (t.filter rectFilter).map (rectRowOfGraspRow cam) := by
  simp only [GraspGroup.to_rect_grasp_group, get_batch_key_points, batch_key_points_2_tuple,
    List.zip_map', List.map_map]
  rfl

/-- A 17-column Grasp row whose rotation block has the given value at entry (2, 0)
(column 10): score 1/2, width 1/10, height and depth 1/50, translation (0, 0, 1/2),
object id 0. -/
def rowAlign (a : ℚ) : Row :=
  [1/2, 1/10, 1/50, 1/50, 0, 0, 1, 0, 1, 0, a, 0, 0, 0, 0, 1/2, 0]

/-- The mask applied to a synthetic row reduces to the comparison on its alignment value. -/
theorem rectFilter_rowAlign (a : ℚ) : rectFilter (rowAlign a) = decide ((0.99 : ℚ) < a) := rfl

/-- C5: to_rect_grasp_group keeps exactly the rows whose rotation entry at (2, 0) exceeds
0.99 and silently drops the rest: the output length equals the count of such rows, each
output row i is the rectangle encoding of the i-th surviving row (relative order
preserved), and on the concrete 3-row group with rotation[2,0] values 0.999, 0.5, 0.995
the output consists of exactly 2 rows, the encodings of the 0.999 row and the 0.995 row in
that order. -/
theorem to_rect_grasp_group_filter_spec :
    (∀ t cam, (GraspGroup.to_rect_grasp_group t cam).length = t.countP rectFilter) ∧
    (∀ (t : Table) (cam : Camera) (i : Nat), (GraspGroup.to_rect_grasp_group t cam)[i]? =
      ((t.filter rectFilter)[i]?).map (rectRowOfGraspRow cam)) ∧
    (GraspGroup.to_rect_grasp_group [rowAlign 0.999, rowAlign 0.5, rowAlign 0.995]
      Camera.realsense).length = 2 ∧
    GraspGroup.to_rect_grasp_group [rowAlign 0.999, rowAlign 0.5, rowAlign 0.995]
        Camera.realsense =
      [rectRowOfGraspRow Camera.realsense (rowAlign 0.999),
       rectRowOfGraspRow Camera.realsense (rowAlign 0.995)] := by
  have h999 : rectFilter (rowAlign 0.999) = true := by
    rw [rectFilter_rowAlign]
    norm_num
  have h5 : rectFilter (rowAlign 0.5) = false := by
    rw [rectFilter_rowAlign]
    norm_num
  have h995 : rectFilter (rowAlign 0.995) = true := by
    rw [rectFilter_rowAlign]
    norm_num
  have hf : List.filter rectFilter [rowAlign 0.999, rowAlign 0.5, rowAlign 0.995] =
      [rowAlign 0.999, rowAlign 0.995] := by
    simp [List.filter, h999, h5, h995]
  refine ⟨?_, ?_, ?_, ?_⟩
  · intro t cam
    rw [to_rect_grasp_group_eq_map_filter, List.length_map, ← List.countP_eq_length_filter]
  · intro t cam i
    rw [to_rect_grasp_group_eq_map_filter, List.getElem?_map]
  · rw [to_rect_grasp_group_eq_map_filter, hf]
    rfl
  · rw [to_rect_grasp_group_eq_map_filter, hf]
    rfl

/-- The rectangle-corner computation of RectGrasp.to_opencv_image (and of the loop body of
RectGraspGroup.to_opencv_image): axis = open point minus center point, normal = the
perpendicular (-axis_y, axis_x) divided by its euclidean norm and scaled by height / 2,
p1 = center + normal + axis, p2 = center + normal - axis, p3 = center - normal - axis,
p4 = center - normal + axis. The norm np.linalg.norm(normal), irrational in general, is
taken as the argument nrm, characterised in the theorem by its square and its sign. -/
def rectCorners (cx cy ox oy hgt nrm : ℚ) : List (ℚ × ℚ) :=
  [(cx + -(oy - cy) / nrm * hgt / 2 + (ox - cx), cy + (ox - cx) / nrm * hgt / 2 + (oy - cy)),
   (cx + -(oy - cy) / nrm * hgt / 2 - (ox - cx), cy + (ox - cx) / nrm * hgt / 2 - (oy - cy)),
   (cx - -(oy - cy) / nrm * hgt / 2 - (ox - cx), cy - (ox - cx) / nrm * hgt / 2 - (oy - cy)),
   (cx - -(oy - cy) / nrm * hgt / 2 + (ox - cx), cy - (ox - cx) / nrm * hgt / 2 + (oy - cy))]

/-- C8: for center (0, 0), open point (10, 0) and height 4, where nrm is the euclidean
norm of the perpendicular vector (-(0 - 0), 10 - 0) — characterised by
nrm^2 = (-(0 - 0))^2 + (10 - 0)^2 and 0 ≤ nrm, which force nrm = 10 — the corners are, in
code order p1 p2 p3 p4, (10, 2), (-10, 2), (-10, -2), (10, -2): exactly the four claimed
points (10, 2), (10, -2), (-10, -2), (-10, 2). -/
theorem rect_corners_example (nrm : ℚ) (hsq : nrm ^ 2 = (-(0 - 0)) ^ 2 + (10 - 0) ^ 2)
    (hnn : 0 ≤ nrm) :
    rectCorners 0 0 10 0 4 nrm = [(10, 2), (-10, 2), (-10, -2), (10, -2)] ∧
    (rectCorners 0 0 10 0 4 nrm).Perm [(10, 2), (10, -2), (-10, -2), (-10, 2)] := by
  have hzero : (nrm - 10) * (nrm + 10) = 0 := by linear_combination hsq
  have h10 : nrm = 10 := by
    rcases mul_eq_zero.mp hzero with h | h
    · linarith
    · linarith
  subst h10
  have hc : rectCorners 0 0 10 0 4 10 = [(10, 2), (-10, 2), (-10, -2), (10, -2)] := by
    norm_num [rectCorners]
  refine ⟨hc, ?_⟩
  rw [hc]
  decide

/-- C8 witness: the corner computation at the true norm value 10. -/
theorem rect_corners_example_witness :
    rectCorners 0 0 10 0 4 10 = [(10, 2), (-10, 2), (-10, -2), (10, -2)] ∧
    (rectCorners 0 0 10 0 4 10).Perm [(10, 2), (10, -2), (-10, -2), (-10, 2)] :=
  rect_corners_example 10 (by norm_num) (by norm_num)

end GraspNet
